import Mathlib

/-!
Verification development for the resume-relevance scoring core
(`hybrid_scoring_engine.py`, `evaluation_engine.py`,
`innomatics_resume_analyzer.py`).

Scores are modelled over `ℚ` (the Python code uses IEEE floats; all the
constants involved are small decimals and none of the verified properties
depend on rounding of binary floating point).  Python strings are modelled
as Lean `String`s together with executable models of the `str` methods the
code uses (`lower`, `strip`, `split`, `in`, `endswith`), restricted to
ASCII case mapping, which is all the skill/keyword tables exercise.
-/

/-- ASCII case-mapping table: the 26 uppercase letters and their lowercase
forms.  Models Python `str.lower` character-wise for the ASCII inputs used
by the skill and keyword tables. -/
def lowerTable : List (Char × Char) :=
  [('A', 'a'), ('B', 'b'), ('C', 'c'), ('D', 'd'), ('E', 'e'), ('F', 'f'),
   ('G', 'g'), ('H', 'h'), ('I', 'i'), ('J', 'j'), ('K', 'k'), ('L', 'l'),
   ('M', 'm'), ('N', 'n'), ('O', 'o'), ('P', 'p'), ('Q', 'q'), ('R', 'r'),
   ('S', 's'), ('T', 't'), ('U', 'u'), ('V', 'v'), ('W', 'w'), ('X', 'x'),
   ('Y', 'y'), ('Z', 'z')]

/-- Lower-case one character (identity outside A–Z). -/
def lowerChar (c : Char) : Char := (lowerTable.lookup c).getD c

/-- Model of Python `str.lower()`. -/
def pyLower (s : String) : String := ⟨s.data.map lowerChar⟩

/-- Remove trailing whitespace from a character list (the right half of
Python `str.strip()`). -/
def rstripL : List Char → List Char
  | [] => []
  | c :: t =>
    let r := rstripL t
    if r.isEmpty && c.isWhitespace then [] else c :: r

/-- Remove leading and trailing whitespace (Python `str.strip()` on a
character list). -/
def stripL (l : List Char) : List Char :=
  rstripL (l.dropWhile Char.isWhitespace)

/-- Model of Python `str.strip()`. -/
def pyStrip (s : String) : String := ⟨stripL s.data⟩

/-- Model of Python `str.split()` with no argument: split on whitespace
runs, discarding empty pieces. -/
def pySplitWs (s : String) : List String :=
  (s.split Char.isWhitespace).filter (fun t => t ≠ "")

/-- Model of the Python substring test `needle in haystack`. -/
def containsSubstr (needle haystack : String) : Bool :=
  go needle.data haystack.data
where
  go (n : List Char) : List Char → Bool
    | [] => n.isEmpty
    | c :: t => n.isPrefixOf (c :: t) || go n t

/-- Model of Python `str.endswith`. -/
def strEndsWith (s suffix : String) : Bool :=
  suffix.data.reverse.isPrefixOf s.data.reverse

/-! ### Hybrid scoring engine (`hybrid_scoring_engine.py`) -/

namespace Hybrid

/-- `WeightingConfig` dataclass with its source defaults
(lines 15–35 of `hybrid_scoring_engine.py`). -/
structure WeightingConfig where
  hard_match_weight : ℚ := 3/5
  soft_match_weight : ℚ := 2/5
  must_have_skills_weight : ℚ := 2/5
  good_to_have_skills_weight : ℚ := 1/5
  qualification_weight : ℚ := 1/5
  experience_weight : ℚ := 1/5
  semantic_similarity_weight : ℚ := 1/2
  role_alignment_weight : ℚ := 3/10
  project_relevance_weight : ℚ := 1/5
  high_fit_threshold : ℚ := 75
  medium_fit_threshold : ℚ := 50

/-- The engine default `WeightingConfig()`. -/
def defaultConfig : WeightingConfig := {}

/-- `FitVerdict` enum (High / Medium / Low). -/
inductive FitVerdict where
  | high
  | medium
  | low
deriving DecidableEq, Repr

/-- Numeric rank of a verdict, used to state monotonicity. -/
def FitVerdict.rank : FitVerdict → ℕ
  | .high => 2
  | .medium => 1
  | .low => 0

/-- One education entry of a `ResumeAnalysis`
(`edu.get('degree')`, `edu.get('field')`). -/
structure EduEntry where
  degree : String
  eduField : String

/-- One work-experience entry (`exp.get('role')`, `exp.get('duration')`). -/
structure WorkExp where
  role : String
  duration : String

/-- One project entry (`proj.get('title')`, `proj.get('description')`,
`proj.get('technologies')`). -/
structure ProjectEntry where
  title : String
  description : String
  technologies : List String

/-- View of `JobDescriptionAnalysis` restricted to the fields the scoring
engine reads. -/
structure JobDescriptionAnalysis where
  role_title : String
  company_name : String
  must_have_skills : List String
  good_to_have_skills : List String
  qualifications : List String
  experience_required : String
  job_description : String
  role_responsibilities : List String
  technical_skills : List String
  domain_keywords : List String

/-- View of `ResumeAnalysis` restricted to the fields the scoring engine
reads. -/
structure ResumeAnalysis where
  extracted_skills : List String
  technical_skills : List String
  education : List EduEntry
  work_experience : List WorkExp
  projects : List ProjectEntry
  total_experience_years : ℚ
  parsed_text : String

/-- `HardMatchResult` record. -/
structure HardMatchResult where
  matched_must_have_skills : List String
  matched_good_to_have_skills : List String
  missing_must_have_skills : List String
  missing_good_to_have_skills : List String
  qualification_match : Bool
  experience_match : Bool
  hard_match_score : ℚ

/-- `SoftMatchResult` record. -/
structure SoftMatchResult where
  semantic_similarity_score : ℚ
  role_alignment_score : ℚ
  project_relevance_score : ℚ
  overall_semantic_score : ℚ

/-- Result record of `evaluate_resume_relevance`.  The derived
`missing_elements` and `improvement_suggestions` string lists are not
modelled (no claim concerns them). -/
structure RelevanceAnalysisResult where
  hard_match : HardMatchResult
  soft_match : SoftMatchResult
  relevance_score : ℚ
  fit_verdict : FitVerdict

/-- Loop body of `_match_skills` (lines 221–248).  `fuzzy lowSkill cands`
stands for the external `fuzzywuzzy` test
`process.extractOne(lowSkill, cands, scorer=fuzz.token_set_ratio)`
reaching the threshold `self.fuzzy_threshold`; the partition properties
below hold for every such oracle. -/
def matchSkillsGo (fuzzy : String → List String → Bool)
    (candLower : List String) : List String → List String × List String
  | [] => ([], [])
  | s :: rest =>
    let (m, miss) := matchSkillsGo fuzzy candLower rest
    if pyLower s ∈ candLower then (s :: m, miss)
    else if fuzzy (pyLower s) candLower then (s :: m, miss)
    else (m, s :: miss)

/-- `_match_skills`: classify each required skill as matched or missing by
exact lower-cased membership, then by the fuzzy oracle. -/
def matchSkills (fuzzy : String → List String → Bool)
    (required candidate : List String) : List String × List String :=
  matchSkillsGo fuzzy (candidate.map pyLower) required

/-- Degree-level keywords of `_match_qualifications` (line 266). -/
def degreeKeywords : List String :=
  ["bachelor", "master", "phd", "b.tech", "m.tech", "bca", "mca"]

/-- Technical-field keywords of `_match_qualifications` (line 267). -/
def fieldKeywords : List String :=
  ["computer", "information", "technology", "engineering"]

/-- The candidate education text: lower-cased degree and field of every
education entry, joined by blanks (lines 255–260). -/
def eduText (education : List EduEntry) : String :=
  String.intercalate " "
    (education.foldr (fun e acc => pyLower e.degree :: pyLower e.eduField :: acc) [])

/-- The `for required_qual in required_qualifications` loop of
`_match_qualifications` (lines 262–268): its body never uses the loop
variable, so it tests the same keyword condition once per qualification. -/
def qualLoop (text : String) : List String → Bool
  | [] => false
  | _ :: rest =>
    if (degreeKeywords.any fun k => containsSubstr k text)
        && (fieldKeywords.any fun k => containsSubstr k text) then true
    else qualLoop text rest

/-- `_match_qualifications` (lines 250–270). -/
def matchQualifications (required_qualifications : List String)
    (candidate_education : List EduEntry) : Bool :=
  if required_qualifications.isEmpty then true
  else if qualLoop (eduText candidate_education) required_qualifications then true
  else decide (candidate_education.length > 0)

/-- First run of decimal digits in a string, as `re.search(r'(\d+)', s)`
(lines 275–279). -/
def firstNumber (s : String) : Option Nat :=
  go s.data
where
  go : List Char → Option Nat
    | [] => none
    | c :: rest =>
      if c.isDigit then
        some (((c :: rest).takeWhile Char.isDigit).foldl
          (fun a d => a * 10 + (d.toNat - 48)) 0)
      else go rest

/-- `_match_experience` (lines 272–286).  The unused `work_experience`
parameter of the source is dropped. -/
def matchExperience (required_experience : String)
    (candidate_years : ℚ) : Bool :=
  match firstNumber required_experience with
  | none => true
  | some required_years =>
    if required_years ≤ 1 then decide (candidate_years ≥ 0)
    else decide (candidate_years ≥ (required_years : ℚ) * (4/5))

/-- Must-have-skills component of `_calculate_hard_match_score` (line 300). -/
def mustHaveScore (cfg : WeightingConfig) (matched total : List String) : ℚ :=
  (matched.length : ℚ) / (max total.length 1 : ℕ) * cfg.must_have_skills_weight

/-- Good-to-have-skills component of `_calculate_hard_match_score`
(line 303). -/
def goodToHaveScore (cfg : WeightingConfig) (matched total : List String) : ℚ :=
  (matched.length : ℚ) / (max total.length 1 : ℕ) * cfg.good_to_have_skills_weight

/-- `_calculate_hard_match_score` (lines 288–314): weighted sum of the four
buckets, scaled to 60 points and capped at 60. -/
def calcHardMatchScore (cfg : WeightingConfig)
    (matched_must_have total_must_have matched_good_to_have total_good_to_have :
      List String)
    (qualification_match experience_match : Bool) : ℚ :=
  let must_have_score := mustHaveScore cfg matched_must_have total_must_have
  let good_to_have_score := goodToHaveScore cfg matched_good_to_have total_good_to_have
  let qualification_score :=
    (if qualification_match then (1 : ℚ) else 0) * cfg.qualification_weight
  let experience_score :=
    (if experience_match then (1 : ℚ) else 0) * cfg.experience_weight
  min ((must_have_score + good_to_have_score + qualification_score +
    experience_score) * 60) 60

/-- `_perform_hard_matching` (lines 118–173). -/
def performHardMatching (cfg : WeightingConfig)
    (fuzzy : String → List String → Bool)
    (job : JobDescriptionAnalysis) (resume : ResumeAnalysis) : HardMatchResult :=
  let candidate := resume.extracted_skills ++ resume.technical_skills
  let mm := matchSkills fuzzy job.must_have_skills candidate
  let gg := matchSkills fuzzy job.good_to_have_skills candidate
  let qualification_match := matchQualifications job.qualifications resume.education
  let experience_match :=
    matchExperience job.experience_required resume.total_experience_years
  { matched_must_have_skills := mm.1
    matched_good_to_have_skills := gg.1
    missing_must_have_skills := mm.2
    missing_good_to_have_skills := gg.2
    qualification_match := qualification_match
    experience_match := experience_match
    hard_match_score := calcHardMatchScore cfg mm.1
      job.must_have_skills gg.1 job.good_to_have_skills
      qualification_match experience_match }

/-- `_perform_soft_matching` (lines 175–219).  `sim a b` stands for
`_calculate_semantic_similarity(a, b)`, whose value comes from the external
embedding model (cosine similarity clamped at 0) or the TF-IDF fallback;
both return values in `[0, 1]`. -/
def performSoftMatching (cfg : WeightingConfig) (sim : String → String → ℚ)
    (job : JobDescriptionAnalysis) (resume : ResumeAnalysis) : SoftMatchResult :=
  let semantic_score := sim job.job_description resume.parsed_text
  let role_alignment_score :=
    if job.role_responsibilities.isEmpty || resume.work_experience.isEmpty then 0
    else sim (String.intercalate " " job.role_responsibilities)
      (String.intercalate " "
        (resume.work_experience.map fun e => e.role ++ " " ++ e.duration))
  let project_relevance_score :=
    if resume.projects.isEmpty then 0
    else sim (String.intercalate " " (job.technical_skills ++ job.domain_keywords))
      (String.intercalate " " (resume.projects.map fun p =>
        p.title ++ " " ++ p.description ++ " " ++ String.intercalate " " p.technologies))
  let overall_semantic_score :=
    (semantic_score * cfg.semantic_similarity_weight +
      role_alignment_score * cfg.role_alignment_weight +
      project_relevance_score * cfg.project_relevance_weight) * 40
  { semantic_similarity_score := semantic_score * 40
    role_alignment_score := role_alignment_score * 40
    project_relevance_score := project_relevance_score * 40
    overall_semantic_score := overall_semantic_score }

/-- `_calculate_relevance_score` (lines 384–393): weighted combination of
the hard and soft sub-scores, clamped to `[0, 100]`. -/
def calcRelevanceScore (cfg : WeightingConfig)
    (hard_match_score overall_semantic_score : ℚ) : ℚ :=
  min (100 : ℚ) (max 0 (hard_match_score * cfg.hard_match_weight +
    overall_semantic_score * cfg.soft_match_weight))

/-- `_determine_fit_verdict` (lines 395–402). -/
def determineFitVerdict (cfg : WeightingConfig) (relevance_score : ℚ) : FitVerdict :=
  if relevance_score ≥ cfg.high_fit_threshold then .high
  else if relevance_score ≥ cfg.medium_fit_threshold then .medium
  else .low

/-- `evaluate_resume_relevance` (lines 76–116), up to the result fields
modelled in `RelevanceAnalysisResult`. -/
def evaluateResumeRelevance (cfg : WeightingConfig)
    (fuzzy : String → List String → Bool) (sim : String → String → ℚ)
    (job : JobDescriptionAnalysis) (resume : ResumeAnalysis) :
    RelevanceAnalysisResult :=
  let hard := performHardMatching cfg fuzzy job resume
  let soft := performSoftMatching cfg sim job resume
  let relevance := calcRelevanceScore cfg hard.hard_match_score soft.overall_semantic_score
  { hard_match := hard
    soft_match := soft
    relevance_score := relevance
    fit_verdict := determineFitVerdict cfg relevance }

end Hybrid

/-! ### Evaluation engine (`evaluation_engine.py`) -/

namespace EvalEngine

/-- Weights read from `app.config.settings` at engine construction
(lines 28–29 of `evaluation_engine.py`): `settings` defines
`hard_match_weight = 0.4` and `semantic_match_weight = 0.6`
(`config.py` lines 32–33), so the `getattr` fallbacks 0.6 / 0.4 are
never used. -/
def hard_match_weight : ℚ := 2/5

/-- See `hard_match_weight`. -/
def semantic_match_weight : ℚ := 3/5

/-- One education entry as read by `calculate_qualification_match`
(`edu.get('degree')`, `edu.get('institution')`). -/
structure EduEntry where
  degree : String
  institution : String

/-- View of the `job_data` dict restricted to the keys the engine reads. -/
structure JobData where
  title : String
  description : String
  qualifications : String
  required_skills : List String
  preferred_skills : List String

/-- View of the `resume_data` dict restricted to the keys the engine
reads. -/
structure ResumeData where
  text : String
  skills : List String
  education : List EduEntry

/-- `_calculate_string_similarity` (lines 67–79): percentage of shared
distinct characters among all distinct characters of the two lower-cased
strings. -/
def stringSimilarity (s1 s2 : String) : ℚ :=
  let a := (pyLower s1).data.dedup
  let b := (pyLower s2).data.dedup
  let total := (a ++ b).dedup
  if total.isEmpty then 0
  else ((a.filter (fun c => c ∈ b)).length : ℚ) / total.length * 100

/-- Alias table of `normalize_skill` (lines 86–97). -/
def skillMappings : List (String × String) :=
  [("js", "javascript"), ("ts", "typescript"), ("reactjs", "react"),
   ("react.js", "react"), ("nodejs", "node.js"), ("node", "node.js"),
   ("ml", "machine learning"), ("ai", "artificial intelligence"),
   ("aws", "amazon web services"), ("gcp", "google cloud platform")]

/-- `normalize_skill` (lines 81–99): strip, lower-case, then rewrite known
aliases; unknown tokens pass through unchanged. -/
def normalize_skill (skill : String) : String :=
  let sk := pyLower (pyStrip skill)
  (skillMappings.lookup sk).getD sk

/-- First loop of `calculate_hard_match_score` (lines 122–124): exact
matches, in job-skill order. -/
def exactPass (all_job_skills candidate_skills : List String) : List String :=
  all_job_skills.filter (fun js => js ∈ candidate_skills)

/-- Second loop of `calculate_hard_match_score` (lines 127–133): a job
skill not yet in `matched_skills` is appended when some candidate skill
has character similarity at least 50. -/
def fuzzyPass (candidate_skills : List String) :
    List String → List String → List String
  | [], acc => acc
  | js :: rest, acc =>
    if js ∉ acc ∧ candidate_skills.any (fun cs => stringSimilarity js cs ≥ 50) then
      fuzzyPass candidate_skills rest (acc ++ [js])
    else fuzzyPass candidate_skills rest acc

/-- Required-skills component of the hard-match score (lines 144–147):
ratio of matched required skills, weighted 0.6, or 0 when the job lists no
required skills. -/
def requiredScore (required_skills matched_skills : List String) : ℚ :=
  if required_skills.length > 0 then
    ((required_skills.filter (fun s => s ∈ matched_skills)).length : ℚ) /
      required_skills.length * (3/5)
  else 0

/-- Preferred-skills component of the hard-match score (lines 149–152):
ratio of matched preferred skills, weighted 0.4; the source awards the
full 0.4 when the job lists no preferred skills. -/
def preferredScore (preferred_skills matched_skills : List String) : ℚ :=
  if preferred_skills.length > 0 then
    ((preferred_skills.filter (fun s => s ∈ matched_skills)).length : ℚ) /
      preferred_skills.length * (2/5)
  else 2/5

/-- `calculate_hard_match_score` (lines 101–159): returns the hard-match
sub-score together with the matched and missing skill lists. -/
def calculate_hard_match_score (job : JobData) (resume : ResumeData) :
    ℚ × List String × List String :=
  let required_skills := job.required_skills.map normalize_skill
  let preferred_skills := job.preferred_skills.map normalize_skill
  let all_job_skills := required_skills ++ preferred_skills
  let candidate_skills := resume.skills.map normalize_skill
  if all_job_skills.isEmpty then (0, [], [])
  else
    let matched_skills :=
      fuzzyPass candidate_skills all_job_skills
        (exactPass all_job_skills candidate_skills)
    let hard_match_score :=
      (requiredScore required_skills matched_skills +
        preferredScore preferred_skills matched_skills) * 100
    let missing_skills := all_job_skills.filter (fun s => s ∉ matched_skills)
    (min hard_match_score 100, matched_skills, missing_skills)

/-- `_calculate_simple_text_similarity` (lines 171–203): Jaccard word
overlap of the lower-cased job and resume texts, as a percentage. -/
def simpleTextSimilarity (job : JobData) (resume : ResumeData) : ℚ :=
  let job_text := pyLower (job.title ++ " " ++ job.description)
  let resume_text := pyLower resume.text
  if job_text = "" ∨ resume_text = "" then 0
  else
    let job_words := (pySplitWs job_text).dedup
    let resume_words := (pySplitWs resume_text).dedup
    let inter := (job_words.filter (fun w => w ∈ resume_words)).length
    let union := ((job_words ++ resume_words).dedup).length
    if union = 0 then 0
    else min ((inter : ℚ) / union * 100) 100

/-- `calculate_semantic_match_score` (lines 161–169): the embedding model
is disabled in this engine, so it always delegates to the simple text
similarity. -/
def calculate_semantic_match_score (job : JobData) (resume : ResumeData) : ℚ :=
  simpleTextSimilarity job resume

/-- Keyword list of `calculate_qualification_match` (lines 227–231). -/
def qualificationKeywords : List String :=
  ["bachelor", "master", "phd", "doctorate", "degree", "computer science",
   "engineering", "information technology", "mathematics", "statistics"]

/-- `calculate_qualification_match` (lines 213–246). -/
def calculate_qualification_match (job : JobData) (resume : ResumeData) :
    List String × List String :=
  let job_qualifications := pyLower job.qualifications
  let resume_education_text := pyLower (String.intercalate " "
    (resume.education.map fun e => e.degree ++ " " ++ e.institution))
  let relevant := qualificationKeywords.filter
    (fun kw => containsSubstr kw job_qualifications)
  (relevant.filter (fun kw => containsSubstr kw resume_education_text),
   relevant.filter (fun kw => !containsSubstr kw resume_education_text))

/-- `determine_suitability` (lines 248–255): the lenient verdict preset
with thresholds 70 and 45. -/
def determine_suitability (relevance_score : ℚ) : String :=
  if relevance_score ≥ 70 then "High"
  else if relevance_score ≥ 45 then "Medium"
  else "Low"

/-- Numeric rank of a suitability string, used to state monotonicity. -/
def suitabilityRank (s : String) : ℕ :=
  if s = "High" then 2 else if s = "Medium" then 1 else 0

/-- Python `round(x, 2)`.  Mathlib `round` rounds half away from the even
tie-breaking Python uses; the two agree except at exact half-hundredth
ties, which no verified statement depends on. -/
def round2 (q : ℚ) : ℚ := (round (q * 100) : ℤ) / 100

/-- Result dict of `evaluate` (lines 338–348).  The `feedback` string of
`generate_feedback` (a pure template concatenation) is not modelled; no
claim concerns its content. -/
structure EvalResult where
  relevance_score : ℚ
  hard_match_score : ℚ
  semantic_match_score : ℚ
  matched_skills : List String
  missing_skills : List String
  matched_qualifications : List String
  missing_qualifications : List String
  suitability : String

/-- `evaluate` (lines 301–363).  Every operation in the `try` body is
total in this model (all divisions are guarded in the source), so the
`except` branch returning the all-zero default result is unreachable. -/
def evaluate (job : JobData) (resume : ResumeData) : EvalResult :=
  let hm := calculate_hard_match_score job resume
  let hard_match_score := hm.1
  let matched_skills := hm.2.1
  let missing_skills := hm.2.2
  let semantic_match_score := calculate_semantic_match_score job resume
  let qm := calculate_qualification_match job resume
  let relevance_score :=
    hard_match_score * hard_match_weight +
      semantic_match_score * semantic_match_weight
  { relevance_score := round2 relevance_score
    hard_match_score := round2 hard_match_score
    semantic_match_score := round2 semantic_match_score
    matched_skills := matched_skills
    missing_skills := missing_skills
    matched_qualifications := qm.1
    missing_qualifications := qm.2
    suitability := determine_suitability relevance_score }

end EvalEngine

/-! ### Resume analyzer entry gate (`innomatics_resume_analyzer.py`) -/

namespace Analyzer

/-- Error taxonomy of `analyze_resume`: both failure modes raise
`ValueError` in the source, distinguished by their messages
(`"Unsupported file format"` at line 129, `"Resume text too short or
extraction failed"` at line 132). -/
inductive ParseError where
  | unsupportedFormat
  | extractionError
deriving DecidableEq, Repr

/-- Format and extraction gate of `analyze_resume` (lines 112–135).
Text extraction itself is I/O (`PyPDF2` / `python-docx`), so the extracted
text is a parameter; a returned `.ok` value is the text that flows into
the construction of the complete `ResumeAnalysis` record (lines 134–166,
all total extractor calls). -/
def analyzeResume (filename : String) (extractedText : String) :
    Except ParseError String :=
  if strEndsWith (pyLower filename) ".pdf" then checkText extractedText
  else if strEndsWith (pyLower filename) ".docx"
      || strEndsWith (pyLower filename) ".doc" then checkText extractedText
  else .error .unsupportedFormat
where
  /-- `if not text or len(text.strip()) < 100: raise ValueError(...)`. -/
  checkText (text : String) : Except ParseError String :=
    if text = "" ∨ (pyStrip text).length < 100 then .error .extractionError
    else .ok text

/-- A 120-character extraction, above the 100-character minimum. -/
def longText : String := String.mk (List.replicate 120 'x')

/-- A 40-character extraction, as in spec Scenario D. -/
def shortText : String := String.mk (List.replicate 40 'x')

end Analyzer

/-! ### Sample records and spec-side comparison definitions -/

namespace Hybrid

/-- A minimal job view: every list empty, every text empty. -/
def sampleJob : JobDescriptionAnalysis :=
  { role_title := ""
    company_name := ""
    must_have_skills := []
    good_to_have_skills := []
    qualifications := []
    experience_required := ""
    job_description := ""
    role_responsibilities := []
    technical_skills := []
    domain_keywords := [] }

/-- A minimal resume view: every list empty, every text empty, 0 years. -/
def sampleResume : ResumeAnalysis :=
  { extracted_skills := []
    technical_skills := []
    education := []
    work_experience := []
    projects := []
    total_experience_years := 0
    parsed_text := "" }

/-- The qualification-match condition as the claim words it (job states no
qualifications, or the education text contains a degree-level keyword and
a technical-field keyword, and nothing else makes it true).  Stated for
comparison with the source function `matchQualifications`. -/
def specQualificationMatch (required_qualifications : List String)
    (candidate_education : List EduEntry) : Bool :=
  required_qualifications.isEmpty ||
    ((degreeKeywords.any fun k => containsSubstr k (eduText candidate_education)) &&
     (fieldKeywords.any fun k => containsSubstr k (eduText candidate_education)))

end Hybrid

/-! ### Properties of the string layer -/

theorem lookup_mem {α β : Type} [BEq α] [LawfulBEq α]
    {l : List (α × β)} {a : α} {b : β}
    (h : l.lookup a = some b) : (a, b) ∈ l := by
  induction l with
  | nil => simp [List.lookup] at h
  | cons p rest ih =>
    obtain ⟨k, v⟩ := p
    rw [List.lookup] at h
    cases hk : a == k with
    | true =>
      have hka : a = k := eq_of_beq hk
      rw [hk] at h
      simp only [Option.some.injEq] at h
      subst hka
      subst h
      exact List.mem_cons_self _ _
    | false =>
      rw [hk] at h
      simp only at h
      exact List.mem_cons_of_mem _ (ih h)

theorem dropWhile_length_le {α : Type} (p : α → Bool) (l : List α) :
    (l.dropWhile p).length ≤ l.length := by
  induction l with
  | nil => simp
  | cons c t ih =>
    rw [List.dropWhile_cons]
    by_cases h : p c = true
    · simp only [h, if_true]
      exact ih.trans (Nat.le_succ _)
    · simp [h]

theorem lowerChar_fixed : ∀ p ∈ lowerTable, lowerChar p.2 = p.2 := by decide

theorem lowerChar_ws_table :
    ∀ p ∈ lowerTable, p.1.isWhitespace = false ∧ p.2.isWhitespace = false := by
  decide

theorem lowerChar_idem (c : Char) : lowerChar (lowerChar c) = lowerChar c := by
  unfold lowerChar
  cases h : lowerTable.lookup c with
  | none => simp [h]
  | some v =>
    have hv := lowerChar_fixed (c, v) (lookup_mem h)
    simpa [h, lowerChar] using hv

theorem lowerChar_ws (c : Char) :
    (lowerChar c).isWhitespace = c.isWhitespace := by
  unfold lowerChar
  cases h : lowerTable.lookup c with
  | none => simp [h]
  | some v =>
    have hv := lowerChar_ws_table (c, v) (lookup_mem h)
    simp [h, hv.1, hv.2]

theorem dropWhile_ws_map_lower (l : List Char) :
    (l.map lowerChar).dropWhile Char.isWhitespace
      = (l.dropWhile Char.isWhitespace).map lowerChar := by
  induction l with
  | nil => simp
  | cons c t ih =>
    simp only [List.map_cons, List.dropWhile_cons, lowerChar_ws]
    by_cases h : c.isWhitespace = true
    · simp [h, ih]
    · simp only [Bool.not_eq_true] at h
      simp [h]

theorem rstripL_map_lower (l : List Char) :
    rstripL (l.map lowerChar) = (rstripL l).map lowerChar := by
  induction l with
  | nil => simp [rstripL]
  | cons c t ih =>
    simp only [List.map_cons, rstripL, ih, lowerChar_ws]
    by_cases h : ((rstripL t).isEmpty && c.isWhitespace) = true
    · simp only [Bool.and_eq_true, List.isEmpty_iff] at h
      simp [h.1, h.2]
    · simp only [Bool.and_eq_true, not_and, Bool.not_eq_true,
        List.isEmpty_iff] at h
      by_cases he : rstripL t = []
      · simp [he, h he]
      · have : ((rstripL t).map lowerChar).isEmpty = false := by
          simpa [List.isEmpty_iff] using he
        simp only [List.isEmpty_iff] at this ⊢
        by_cases hc : c.isWhitespace <;> simp [this, he, hc]

theorem stripL_map_lower (l : List Char) :
    stripL (l.map lowerChar) = (stripL l).map lowerChar := by
  unfold stripL
  rw [dropWhile_ws_map_lower, rstripL_map_lower]

theorem rstripL_idem (l : List Char) : rstripL (rstripL l) = rstripL l := by
  induction l with
  | nil => simp [rstripL]
  | cons c t ih =>
    simp only [rstripL]
    by_cases h : ((rstripL t).isEmpty && c.isWhitespace) = true
    · simp [h, rstripL]
    · simp only [h, if_false, rstripL, ih, h]

theorem dropWhile_ws_rstripL (l : List Char)
    (h : l.dropWhile Char.isWhitespace = l) :
    (rstripL l).dropWhile Char.isWhitespace = rstripL l := by
  cases l with
  | nil => simp [rstripL]
  | cons c t =>
    have hc : c.isWhitespace = false := by
      by_cases hc : c.isWhitespace = true
      · rw [List.dropWhile_cons, if_pos hc] at h
        have hlen := dropWhile_length_le Char.isWhitespace t
        rw [h] at hlen
        simp at hlen
      · simpa using hc
    simp only [rstripL]
    by_cases he : ((rstripL t).isEmpty && c.isWhitespace) = true
    · simp [he]
    · simp [he, List.dropWhile_cons, hc]

theorem stripL_idem (l : List Char) : stripL (stripL l) = stripL l := by
  have h1 : (stripL l).dropWhile Char.isWhitespace = stripL l := by
    unfold stripL
    exact dropWhile_ws_rstripL _ (List.dropWhile_idempotent _ _)
  show rstripL ((stripL l).dropWhile Char.isWhitespace) = stripL l
  rw [h1]
  show rstripL (rstripL (l.dropWhile Char.isWhitespace)) = stripL l
  rw [rstripL_idem]
  rfl

theorem pyLower_pyLower (s : String) : pyLower (pyLower s) = pyLower s := by
  unfold pyLower
  simp [List.map_map, Function.comp_def, lowerChar_idem]

theorem pyStrip_pyLower_pyStrip (s : String) :
    pyStrip (pyLower (pyStrip s)) = pyLower (pyStrip s) := by
  unfold pyStrip pyLower
  simp only
  rw [show stripL s.data = stripL (stripL s.data) from (stripL_idem _).symm,
    ← stripL_map_lower, stripL_idem]

/-- The text normalization `strip` then `lower` applied by the skill
normalizer is idempotent. -/
theorem normText_idem (s : String) :
    pyLower (pyStrip (pyLower (pyStrip s))) = pyLower (pyStrip s) := by
  rw [pyStrip_pyLower_pyStrip, pyLower_pyLower]

/-! ### Helper lemmas about the engine functions -/

theorem matchSkillsGo_eq (fuzzy : String → List String → Bool)
    (candLower : List String) (required : List String) :
    Hybrid.matchSkillsGo fuzzy candLower required =
      (required.filter
        (fun s => decide (pyLower s ∈ candLower) || fuzzy (pyLower s) candLower),
       required.filter
        (fun s => !(decide (pyLower s ∈ candLower) || fuzzy (pyLower s) candLower))) := by
  induction required with
  | nil => rfl
  | cons s rest ih =>
    simp only [Hybrid.matchSkillsGo, ih, List.filter_cons]
    by_cases h1 : pyLower s ∈ candLower
    · simp [h1]
    · by_cases h2 : fuzzy (pyLower s) candLower <;> simp [h1, h2]

theorem qualLoop_eq (text : String) (l : List String) :
    Hybrid.qualLoop text l =
      (!l.isEmpty &&
        ((Hybrid.degreeKeywords.any fun k => containsSubstr k text) &&
         (Hybrid.fieldKeywords.any fun k => containsSubstr k text))) := by
  induction l with
  | nil => rfl
  | cons q rest ih =>
    simp only [Hybrid.qualLoop, ih]
    by_cases h : ((Hybrid.degreeKeywords.any fun k => containsSubstr k text)
        && (Hybrid.fieldKeywords.any fun k => containsSubstr k text)) = true
    · simp [h]
    · simp only [h, if_false]
      simp only [Bool.not_eq_true] at h
      simp [h]

/-! ### Claims -/

/-- C1: the hybrid engine's final relevance score equals
`hard_match_weight * hard_match_score + soft_match_weight * semantic_score`
with default weights 0.6 and 0.4 summing to 1.0, clamped to `[0, 100]`; in
particular `0 ≤ relevance_score ≤ 100` holds for all sub-score inputs. -/
theorem c1_relevance_formula_and_bounds :
    (Hybrid.defaultConfig.hard_match_weight = 3/5 ∧
     Hybrid.defaultConfig.soft_match_weight = 2/5 ∧
     Hybrid.defaultConfig.hard_match_weight +
       Hybrid.defaultConfig.soft_match_weight = 1) ∧
    (∀ h s : ℚ, Hybrid.calcRelevanceScore Hybrid.defaultConfig h s =
      min 100 (max 0 (Hybrid.defaultConfig.hard_match_weight * h +
        Hybrid.defaultConfig.soft_match_weight * s))) ∧
    (∀ h s : ℚ, 0 ≤ Hybrid.calcRelevanceScore Hybrid.defaultConfig h s ∧
      Hybrid.calcRelevanceScore Hybrid.defaultConfig h s ≤ 100) := by
  refine ⟨⟨rfl, rfl, by norm_num [Hybrid.defaultConfig]⟩, ?_, ?_⟩
  · intro h s
    unfold Hybrid.calcRelevanceScore
    rw [mul_comm h, mul_comm s]
  · intro h s
    unfold Hybrid.calcRelevanceScore
    exact ⟨le_min (by norm_num) (le_max_left 0 _), min_le_left _ _⟩

/-- C2: the fit verdict is a non-decreasing step function of the relevance
score; under the hybrid engine's default (strict) thresholds a score of
exactly 75 yields High and 74.999 yields Medium, with High ⟺ score ≥ 75
and Medium ⟺ 50 ≤ score < 75; under the evaluation engine's (lenient)
`determine_suitability` the thresholds are 70 and 45. -/
theorem c2_verdict_step_function :
    (∀ r₁ r₂ : ℚ, r₁ ≤ r₂ →
      (Hybrid.determineFitVerdict Hybrid.defaultConfig r₁).rank ≤
        (Hybrid.determineFitVerdict Hybrid.defaultConfig r₂).rank) ∧
    (∀ r₁ r₂ : ℚ, r₁ ≤ r₂ →
      EvalEngine.suitabilityRank (EvalEngine.determine_suitability r₁) ≤
        EvalEngine.suitabilityRank (EvalEngine.determine_suitability r₂)) ∧
    Hybrid.determineFitVerdict Hybrid.defaultConfig 75 = .high ∧
    Hybrid.determineFitVerdict Hybrid.defaultConfig (74999/1000) = .medium ∧
    (∀ r : ℚ, Hybrid.determineFitVerdict Hybrid.defaultConfig r = .high ↔ 75 ≤ r) ∧
    (∀ r : ℚ, Hybrid.determineFitVerdict Hybrid.defaultConfig r = .medium ↔
      50 ≤ r ∧ r < 75) ∧
    (∀ r : ℚ, EvalEngine.determine_suitability r = "High" ↔ 70 ≤ r) ∧
    (∀ r : ℚ, EvalEngine.determine_suitability r = "Medium" ↔ 45 ≤ r ∧ r < 70) := by
  have hhi : Hybrid.defaultConfig.high_fit_threshold = 75 := rfl
  have hmed : Hybrid.defaultConfig.medium_fit_threshold = 50 := rfl
  refine ⟨?_, ?_, ?_, ?_, ?_, ?_, ?_, ?_⟩
  · intro r₁ r₂ hr
    unfold Hybrid.determineFitVerdict
    rw [hhi, hmed]
    split_ifs <;> simp_all [Hybrid.FitVerdict.rank] <;> linarith
  · intro r₁ r₂ hr
    unfold EvalEngine.determine_suitability
    split_ifs <;> simp_all [EvalEngine.suitabilityRank] <;> linarith
  · unfold Hybrid.determineFitVerdict
    rw [hhi]
    norm_num
  · unfold Hybrid.determineFitVerdict
    rw [hhi, hmed]
    norm_num
  · intro r
    unfold Hybrid.determineFitVerdict
    rw [hhi, hmed]
    split_ifs with h1 h2 <;> simp_all
  · intro r
    unfold Hybrid.determineFitVerdict
    rw [hhi, hmed]
    split_ifs with h1 h2 <;> simp_all
  · intro r
    unfold EvalEngine.determine_suitability
    split_ifs with h1 h2 <;> simp_all
  · intro r
    unfold EvalEngine.determine_suitability
    split_ifs with h1 h2 <;> simp_all

/-- Witness for C2: instantiates the monotonicity conjuncts at 50 ≤ 80 and
45 ≤ 70. -/
theorem c2_witness :
    (Hybrid.determineFitVerdict Hybrid.defaultConfig 50).rank ≤
      (Hybrid.determineFitVerdict Hybrid.defaultConfig 80).rank ∧
    EvalEngine.suitabilityRank (EvalEngine.determine_suitability 45) ≤
      EvalEngine.suitabilityRank (EvalEngine.determine_suitability 70) :=
  ⟨c2_verdict_step_function.1 50 80 (by norm_num),
   c2_verdict_step_function.2.1 45 70 (by norm_num)⟩

/-- C6: `_match_skills` partitions the job's required skills for every
fuzzy-matching oracle: matched and missing skills are drawn from the
required list (never from the candidate's skills), no skill is both
matched and missing, and every required skill is one or the other. -/
theorem c6_match_skills_partition (fuzzy : String → List String → Bool)
    (required candidate : List String) :
    (∀ s ∈ (Hybrid.matchSkills fuzzy required candidate).1, s ∈ required) ∧
    (∀ s ∈ (Hybrid.matchSkills fuzzy required candidate).2, s ∈ required) ∧
    (∀ s, s ∈ (Hybrid.matchSkills fuzzy required candidate).1 →
      s ∉ (Hybrid.matchSkills fuzzy required candidate).2) ∧
    (∀ s ∈ required, s ∈ (Hybrid.matchSkills fuzzy required candidate).1 ∨
      s ∈ (Hybrid.matchSkills fuzzy required candidate).2) := by
  unfold Hybrid.matchSkills
  rw [matchSkillsGo_eq]
  refine ⟨?_, ?_, ?_, ?_⟩
  · intro s hs
    exact (List.mem_filter.mp hs).1
  · intro s hs
    exact (List.mem_filter.mp hs).1
  · intro s hs hs2
    have h1 := (List.mem_filter.mp hs).2
    have h2 := (List.mem_filter.mp hs2).2
    rw [h1] at h2
    simp at h2
  · intro s hs
    by_cases hp : (decide (pyLower s ∈ candidate.map pyLower) ||
        fuzzy (pyLower s) (candidate.map pyLower)) = true
    · exact Or.inl (List.mem_filter.mpr ⟨hs, hp⟩)
    · refine Or.inr (List.mem_filter.mpr ⟨hs, ?_⟩)
      simp only [Bool.not_eq_true] at hp
      show (!(decide (pyLower s ∈ candidate.map pyLower) ||
        fuzzy (pyLower s) (candidate.map pyLower))) = true
      rw [hp]
      rfl

/-- Witness for C6 at a concrete job/candidate pair. -/
theorem c6_witness :
    "Python" ∈ (Hybrid.matchSkills (fun _ _ => false)
        ["Python", "Django"] ["python"]).1 ∨
    "Python" ∈ (Hybrid.matchSkills (fun _ _ => false)
        ["Python", "Django"] ["python"]).2 :=
  (c6_match_skills_partition (fun _ _ => false) ["Python", "Django"]
    ["python"]).2.2.2 "Python" (by decide)

/-- C7 counterexample: a job that states a qualification and a resume
whose education text (`"arts history"`) contains no degree-level keyword
still gets `qualification_match = True` from the source (its final
`len(candidate_education) > 0` fallback), while the condition claimed in
the spec is false. -/
theorem c7_counterexample :
    Hybrid.matchQualifications ["b.sc"] [⟨"arts", "history"⟩] = true ∧
    Hybrid.specQualificationMatch ["b.sc"] [⟨"arts", "history"⟩] = false := by
  constructor
  · decide
  · decide

/-- C7 amended: the qualification-match boolean is true exactly when the
job states no qualifications, or the education text contains both a
degree-level and a technical-field keyword, or — failing that — the
candidate has at least one education entry. -/
theorem c7_amended_qualification_match (required_qualifications : List String)
    (candidate_education : List Hybrid.EduEntry) :
    Hybrid.matchQualifications required_qualifications candidate_education =
      (required_qualifications.isEmpty ||
        ((Hybrid.degreeKeywords.any fun k =>
            containsSubstr k (Hybrid.eduText candidate_education)) &&
         (Hybrid.fieldKeywords.any fun k =>
            containsSubstr k (Hybrid.eduText candidate_education))) ||
        !candidate_education.isEmpty) := by
  unfold Hybrid.matchQualifications
  cases required_qualifications with
  | nil => simp
  | cons q rest =>
    rw [qualLoop_eq]
    simp only [List.isEmpty_cons, Bool.not_false, Bool.true_and, if_false,
      Bool.false_or]
    by_cases h : ((Hybrid.degreeKeywords.any fun k =>
        containsSubstr k (Hybrid.eduText candidate_education)) &&
        (Hybrid.fieldKeywords.any fun k =>
          containsSubstr k (Hybrid.eduText candidate_education))) = true
    · simp [h]
    · simp only [Bool.not_eq_true] at h
      simp only [h, if_false, Bool.false_or]
      cases candidate_education <;> simp

theorem normalize_skill_expand (s : String) :
    EvalEngine.normalize_skill s =
      (EvalEngine.skillMappings.lookup (pyLower (pyStrip s))).getD
        (pyLower (pyStrip s)) := rfl

theorem normalize_skill_fixed_on_values :
    ∀ p ∈ EvalEngine.skillMappings,
      EvalEngine.normalize_skill p.2 = p.2 := by decide

/-- C10: the skill normalizer is a total function; tokens outside the
alias table pass through stripped and lower-cased, and the normalizer is
idempotent on every string. -/
theorem c10_normalizer_idempotent :
    (∀ s : String, EvalEngine.normalize_skill (EvalEngine.normalize_skill s) =
      EvalEngine.normalize_skill s) ∧
    (∀ s : String,
      EvalEngine.skillMappings.lookup (pyLower (pyStrip s)) = none →
      EvalEngine.normalize_skill s = pyLower (pyStrip s)) := by
  constructor
  · intro s
    cases h : EvalEngine.skillMappings.lookup (pyLower (pyStrip s)) with
    | some v =>
      have hs : EvalEngine.normalize_skill s = v := by
        rw [normalize_skill_expand, h]
        rfl
      rw [hs]
      exact normalize_skill_fixed_on_values (pyLower (pyStrip s), v) (lookup_mem h)
    | none =>
      have hs : EvalEngine.normalize_skill s = pyLower (pyStrip s) := by
        rw [normalize_skill_expand, h]
        rfl
      rw [hs, normalize_skill_expand, normText_idem, h]
      rfl
  · intro s h
    rw [normalize_skill_expand, h]
    rfl

/-- Witness for C10: a token outside the alias table passes through
stripped and lower-cased. -/
theorem c10_witness :
    EvalEngine.normalize_skill " Qiskit " = pyLower (pyStrip " Qiskit ") :=
  c10_normalizer_idempotent.2 " Qiskit " (by decide)

/-- C4 counterexample: in the hybrid engine's hard-match scorer an empty
good-to-have skill list contributes 0, not its full weight 0.2: with one
matched must-have skill and both boolean buckets satisfied, the hard-match
score is 48 where full good-to-have credit would give 60. -/
theorem c4_counterexample :
    Hybrid.goodToHaveScore Hybrid.defaultConfig [] [] = 0 ∧
    Hybrid.defaultConfig.good_to_have_skills_weight = 1/5 ∧
    Hybrid.calcHardMatchScore Hybrid.defaultConfig
      ["python"] ["python"] [] [] true true = 48 ∧
    ((2/5 : ℚ) + 1/5 + 1/5 + 1/5) * 60 = 60 := by
  refine ⟨?_, rfl, ?_, by norm_num⟩
  · unfold Hybrid.goodToHaveScore
    norm_num
  · unfold Hybrid.calcHardMatchScore Hybrid.mustHaveScore Hybrid.goodToHaveScore
    norm_num [Hybrid.defaultConfig]

/-- C4 amended: vacuous satisfaction of an empty preferred/good-to-have
bucket holds in the evaluation engine (`preferred_score = 0.4` whenever
the job lists no preferred skills, for every matched list), but not in the
hybrid engine, whose good-to-have bucket yields empty matched lists and a
zero contribution when the job lists no good-to-have skills. -/
theorem c4_amended_vacuous_bucket :
    (∀ matched_skills : List String,
      EvalEngine.preferredScore [] matched_skills = 2/5) ∧
    (∀ (fuzzy : String → List String → Bool) (candidate : List String),
      Hybrid.matchSkills fuzzy [] candidate = ([], [])) ∧
    Hybrid.goodToHaveScore Hybrid.defaultConfig [] [] = 0 := by
  refine ⟨fun m => rfl, fun fuzzy c => rfl, ?_⟩
  unfold Hybrid.goodToHaveScore
  norm_num

/-- C5 counterexample: for a job with no skills at all (and no
qualifications, no parseable experience requirement) the hybrid engine's
hard-match sub-score is 24, not 0 — the qualification and experience
buckets still award their default-true credit. -/
theorem c5_counterexample :
    (Hybrid.performHardMatching Hybrid.defaultConfig (fun _ _ => false)
      Hybrid.sampleJob Hybrid.sampleResume).hard_match_score = 24 ∧
    (24 : ℚ) ≠ 0 := by
  constructor
  · simp only [Hybrid.performHardMatching]
    norm_num [Hybrid.calcHardMatchScore, Hybrid.mustHaveScore,
      Hybrid.goodToHaveScore, Hybrid.sampleJob, Hybrid.sampleResume,
      Hybrid.matchSkills, Hybrid.matchSkillsGo, Hybrid.matchQualifications,
      Hybrid.matchExperience, Hybrid.firstNumber, Hybrid.firstNumber.go,
      Hybrid.defaultConfig]
  · norm_num

/-- C5 amended: in the evaluation engine a job with empty required and
preferred skill lists yields hard-match sub-score 0 with empty
matched/missing lists (and no error — the function is total); in the
hybrid engine the matched/missing lists are likewise all empty, but the
sub-score also counts the qualification and experience buckets. -/
theorem c5_amended_empty_skills (job : EvalEngine.JobData)
    (resume : EvalEngine.ResumeData) (cfg : Hybrid.WeightingConfig)
    (fuzzy : String → List String → Bool)
    (hjob : Hybrid.JobDescriptionAnalysis) (hresume : Hybrid.ResumeAnalysis)
    (h1 : job.required_skills = []) (h2 : job.preferred_skills = [])
    (h3 : hjob.must_have_skills = []) (h4 : hjob.good_to_have_skills = []) :
    EvalEngine.calculate_hard_match_score job resume = (0, [], []) ∧
    (Hybrid.performHardMatching cfg fuzzy hjob hresume).matched_must_have_skills
      = [] ∧
    (Hybrid.performHardMatching cfg fuzzy hjob hresume).missing_must_have_skills
      = [] ∧
    (Hybrid.performHardMatching cfg fuzzy hjob hresume).matched_good_to_have_skills
      = [] ∧
    (Hybrid.performHardMatching cfg fuzzy hjob hresume).missing_good_to_have_skills
      = [] := by
  refine ⟨?_, ?_, ?_, ?_, ?_⟩
  · unfold EvalEngine.calculate_hard_match_score
    rw [h1, h2]
    rfl
  all_goals
    simp only [Hybrid.performHardMatching, h3, h4]
    rfl

/-- Witness for C5 (amended): concrete all-empty job and resume records. -/
theorem c5_witness :
    EvalEngine.calculate_hard_match_score ⟨"", "", "", [], []⟩ ⟨"", [], []⟩
      = (0, [], []) ∧
    (Hybrid.performHardMatching Hybrid.defaultConfig (fun _ _ => false)
      Hybrid.sampleJob Hybrid.sampleResume).matched_must_have_skills = [] ∧
    (Hybrid.performHardMatching Hybrid.defaultConfig (fun _ _ => false)
      Hybrid.sampleJob Hybrid.sampleResume).missing_must_have_skills = [] ∧
    (Hybrid.performHardMatching Hybrid.defaultConfig (fun _ _ => false)
      Hybrid.sampleJob Hybrid.sampleResume).matched_good_to_have_skills = [] ∧
    (Hybrid.performHardMatching Hybrid.defaultConfig (fun _ _ => false)
      Hybrid.sampleJob Hybrid.sampleResume).missing_good_to_have_skills = [] :=
  c5_amended_empty_skills ⟨"", "", "", [], []⟩ ⟨"", [], []⟩
    Hybrid.defaultConfig (fun _ _ => false) Hybrid.sampleJob
    Hybrid.sampleResume rfl rfl rfl rfl

theorem round_le_round {x y : ℚ} (h : x ≤ y) : round x ≤ round y := by
  rw [round_eq, round_eq]
  exact Int.floor_mono (by linarith)

theorem round2_bounds {x : ℚ} (h0 : 0 ≤ x) (h100 : x ≤ 100) :
    0 ≤ EvalEngine.round2 x ∧ EvalEngine.round2 x ≤ 100 := by
  unfold EvalEngine.round2
  have hlo : (0 : ℤ) ≤ round (x * 100) := by
    have h := round_le_round (show (0 : ℚ) ≤ x * 100 by nlinarith)
    rwa [round_zero] at h
  have hhi : round (x * 100) ≤ 10000 := by
    have h := round_le_round (show x * 100 ≤ ((10000 : ℤ) : ℚ) by push_cast; nlinarith)
    rwa [round_intCast] at h
  constructor
  · apply div_nonneg _ (by norm_num)
    exact_mod_cast hlo
  · rw [div_le_iff₀ (by norm_num : (0 : ℚ) < 100)]
    calc ((round (x * 100) : ℤ) : ℚ) ≤ ((10000 : ℤ) : ℚ) := by exact_mod_cast hhi
    _ = 100 * 100 := by norm_num

theorem requiredScore_nonneg (required matched : List String) :
    0 ≤ EvalEngine.requiredScore required matched := by
  unfold EvalEngine.requiredScore
  split_ifs
  · positivity
  · norm_num

theorem preferredScore_nonneg (preferred matched : List String) :
    0 ≤ EvalEngine.preferredScore preferred matched := by
  unfold EvalEngine.preferredScore
  split_ifs
  · positivity
  · norm_num

theorem hard_match_score_bounds (job : EvalEngine.JobData)
    (resume : EvalEngine.ResumeData) :
    0 ≤ (EvalEngine.calculate_hard_match_score job resume).1 ∧
    (EvalEngine.calculate_hard_match_score job resume).1 ≤ 100 := by
  simp only [EvalEngine.calculate_hard_match_score]
  split_ifs
  · norm_num
  · refine ⟨le_min ?_ (by norm_num), min_le_right _ _⟩
    have h1 := requiredScore_nonneg (job.required_skills.map EvalEngine.normalize_skill)
      (EvalEngine.fuzzyPass (resume.skills.map EvalEngine.normalize_skill)
        (job.required_skills.map EvalEngine.normalize_skill ++
          job.preferred_skills.map EvalEngine.normalize_skill)
        (EvalEngine.exactPass
          (job.required_skills.map EvalEngine.normalize_skill ++
            job.preferred_skills.map EvalEngine.normalize_skill)
          (resume.skills.map EvalEngine.normalize_skill)))
    have h2 := preferredScore_nonneg (job.preferred_skills.map EvalEngine.normalize_skill)
      (EvalEngine.fuzzyPass (resume.skills.map EvalEngine.normalize_skill)
        (job.required_skills.map EvalEngine.normalize_skill ++
          job.preferred_skills.map EvalEngine.normalize_skill)
        (EvalEngine.exactPass
          (job.required_skills.map EvalEngine.normalize_skill ++
            job.preferred_skills.map EvalEngine.normalize_skill)
          (resume.skills.map EvalEngine.normalize_skill)))
    nlinarith

theorem semantic_score_bounds (job : EvalEngine.JobData)
    (resume : EvalEngine.ResumeData) :
    0 ≤ EvalEngine.calculate_semantic_match_score job resume ∧
    EvalEngine.calculate_semantic_match_score job resume ≤ 100 := by
  simp only [EvalEngine.calculate_semantic_match_score,
    EvalEngine.simpleTextSimilarity]
  split_ifs
  · norm_num
  · norm_num
  · exact ⟨le_min (by positivity) (by norm_num), min_le_right _ _⟩

/-- C9: the evaluation engine is a total function of any well-formed
job/resume pair: the relevance score is always within `[0, 100]` and the
suitability always one of High/Medium/Low (a complete result, never an
exception), and on the all-empty job/resume pair every sub-score is 0,
the skill lists are empty and the suitability is Low — exactly the values
the source's `except` fallback would produce. -/
theorem c9_evaluate_total_and_default :
    (∀ (job : EvalEngine.JobData) (resume : EvalEngine.ResumeData),
      0 ≤ (EvalEngine.evaluate job resume).relevance_score ∧
      (EvalEngine.evaluate job resume).relevance_score ≤ 100 ∧
      ((EvalEngine.evaluate job resume).suitability = "High" ∨
       (EvalEngine.evaluate job resume).suitability = "Medium" ∨
       (EvalEngine.evaluate job resume).suitability = "Low")) ∧
    EvalEngine.evaluate ⟨"", "", "", [], []⟩ ⟨"", [], []⟩ =
      { relevance_score := 0
        hard_match_score := 0
        semantic_match_score := 0
        matched_skills := []
        missing_skills := []
        matched_qualifications := []
        missing_qualifications := []
        suitability := "Low" } := by
  constructor
  · intro job resume
    have hb := hard_match_score_bounds job resume
    have sb := semantic_score_bounds job resume
    have hw1 : EvalEngine.hard_match_weight = 2/5 := rfl
    have hw2 : EvalEngine.semantic_match_weight = 3/5 := rfl
    have hrel0 : 0 ≤ (EvalEngine.calculate_hard_match_score job resume).1 *
        EvalEngine.hard_match_weight +
        EvalEngine.calculate_semantic_match_score job resume *
        EvalEngine.semantic_match_weight := by
      rw [hw1, hw2]
      nlinarith [hb.1, sb.1]
    have hrel100 : (EvalEngine.calculate_hard_match_score job resume).1 *
        EvalEngine.hard_match_weight +
        EvalEngine.calculate_semantic_match_score job resume *
        EvalEngine.semantic_match_weight ≤ 100 := by
      rw [hw1, hw2]
      nlinarith [hb.2, sb.2]
    refine ⟨(round2_bounds hrel0 hrel100).1, (round2_bounds hrel0 hrel100).2, ?_⟩
    show EvalEngine.determine_suitability _ = "High" ∨
      EvalEngine.determine_suitability _ = "Medium" ∨
      EvalEngine.determine_suitability _ = "Low"
    unfold EvalEngine.determine_suitability
    split_ifs <;> simp
  · have hhard : EvalEngine.calculate_hard_match_score
        ⟨"", "", "", [], []⟩ ⟨"", [], []⟩ = (0, [], []) := rfl
    have hsem : EvalEngine.calculate_semantic_match_score
        ⟨"", "", "", [], []⟩ ⟨"", [], []⟩ = 0 := rfl
    have hqual : EvalEngine.calculate_qualification_match
        ⟨"", "", "", [], []⟩ ⟨"", [], []⟩ = ([], []) := rfl
    simp only [EvalEngine.evaluate, hhard, hsem, hqual]
    norm_num [EvalEngine.round2, EvalEngine.determine_suitability,
      EvalEngine.hard_match_weight, EvalEngine.semantic_match_weight]

theorem soft_score_le_40 (sim : String → String → ℚ)
    (job : Hybrid.JobDescriptionAnalysis) (resume : Hybrid.ResumeAnalysis)
    (hsim : ∀ a b, 0 ≤ sim a b ∧ sim a b ≤ 1) :
    (Hybrid.performSoftMatching Hybrid.defaultConfig sim job resume).overall_semantic_score
      ≤ 40 := by
  simp only [Hybrid.performSoftMatching]
  have hw1 : Hybrid.defaultConfig.semantic_similarity_weight = 1/2 := rfl
  have hw2 : Hybrid.defaultConfig.role_alignment_weight = 3/10 := rfl
  have hw3 : Hybrid.defaultConfig.project_relevance_weight = 1/5 := rfl
  rw [hw1, hw2, hw3]
  have hsem := (hsim job.job_description resume.parsed_text).2
  have hrole : (if job.role_responsibilities.isEmpty ||
      resume.work_experience.isEmpty then (0 : ℚ)
      else sim (String.intercalate " " job.role_responsibilities)
        (String.intercalate " "
          (resume.work_experience.map fun e => e.role ++ " " ++ e.duration))) ≤ 1 := by
    split_ifs
    · norm_num
    · exact (hsim _ _).2
  have hproj : (if resume.projects.isEmpty then (0 : ℚ)
      else sim (String.intercalate " " (job.technical_skills ++ job.domain_keywords))
        (String.intercalate " " (resume.projects.map fun p =>
          p.title ++ " " ++ p.description ++ " " ++
            String.intercalate " " p.technologies))) ≤ 1 := by
    split_ifs
    · norm_num
    · exact (hsim _ _).2
  linarith

/-- C3: under the default `WeightingConfig` the hybrid engine's hard-match
sub-score is capped at 60 and its semantic sub-score at 40, and since the
final combination weights them again by 0.6 and 0.4 the relevance score
never exceeds 0.6·60 + 0.4·40 = 52; consequently `evaluate_resume_relevance`
can never return the High fit verdict (which needs ≥ 75). -/
theorem c3_relevance_capped_at_52 (fuzzy : String → List String → Bool)
    (sim : String → String → ℚ)
    (job : Hybrid.JobDescriptionAnalysis) (resume : Hybrid.ResumeAnalysis)
    (hsim : ∀ a b, 0 ≤ sim a b ∧ sim a b ≤ 1) :
    (Hybrid.performHardMatching Hybrid.defaultConfig fuzzy job resume).hard_match_score
      ≤ 60 ∧
    (Hybrid.performSoftMatching Hybrid.defaultConfig sim job resume).overall_semantic_score
      ≤ 40 ∧
    (Hybrid.evaluateResumeRelevance Hybrid.defaultConfig fuzzy sim job
      resume).relevance_score ≤ 52 ∧
    (Hybrid.evaluateResumeRelevance Hybrid.defaultConfig fuzzy sim job
      resume).fit_verdict ≠ Hybrid.FitVerdict.high := by
  have hhard : (Hybrid.performHardMatching Hybrid.defaultConfig fuzzy job
      resume).hard_match_score ≤ 60 := by
    simp only [Hybrid.performHardMatching, Hybrid.calcHardMatchScore]
    exact min_le_right _ _
  have hsoft := soft_score_le_40 sim job resume hsim
  have hrel : (Hybrid.evaluateResumeRelevance Hybrid.defaultConfig fuzzy sim job
      resume).relevance_score ≤ 52 := by
    simp only [Hybrid.evaluateResumeRelevance, Hybrid.calcRelevanceScore]
    have hw1 : Hybrid.defaultConfig.hard_match_weight = 3/5 := rfl
    have hw2 : Hybrid.defaultConfig.soft_match_weight = 2/5 := rfl
    rw [hw1, hw2]
    exact le_trans (min_le_right _ _) (max_le (by norm_num) (by nlinarith))
  refine ⟨hhard, hsoft, hrel, ?_⟩
  show Hybrid.determineFitVerdict Hybrid.defaultConfig _ ≠ Hybrid.FitVerdict.high
  unfold Hybrid.determineFitVerdict
  have hth : Hybrid.defaultConfig.high_fit_threshold = 75 := rfl
  rw [hth, if_neg (by
    intro hge
    have := le_trans hge hrel
    norm_num at this)]
  split_ifs <;> simp

/-- Witness for C3 at an all-empty job/resume pair with the constant-zero
similarity oracle. -/
theorem c3_witness :
    (Hybrid.performHardMatching Hybrid.defaultConfig (fun _ _ => false)
      Hybrid.sampleJob Hybrid.sampleResume).hard_match_score ≤ 60 ∧
    (Hybrid.performSoftMatching Hybrid.defaultConfig (fun _ _ => 0)
      Hybrid.sampleJob Hybrid.sampleResume).overall_semantic_score ≤ 40 ∧
    (Hybrid.evaluateResumeRelevance Hybrid.defaultConfig (fun _ _ => false)
      (fun _ _ => 0) Hybrid.sampleJob Hybrid.sampleResume).relevance_score ≤ 52 ∧
    (Hybrid.evaluateResumeRelevance Hybrid.defaultConfig (fun _ _ => false)
      (fun _ _ => 0) Hybrid.sampleJob Hybrid.sampleResume).fit_verdict ≠
      Hybrid.FitVerdict.high :=
  c3_relevance_capped_at_52 (fun _ _ => false) (fun _ _ => 0)
    Hybrid.sampleJob Hybrid.sampleResume (fun a b => by norm_num)

set_option maxRecDepth 4000 in
/-- C8 counterexample: the filename `"resume.doc"` has an extension
outside {pdf, docx}, yet `analyze_resume` accepts it (the source also
accepts `.doc`) and produces a record from a long-enough extraction
instead of raising the unsupported-format error. -/
theorem c8_counterexample :
    Analyzer.analyzeResume "resume.doc" Analyzer.longText =
      Except.ok Analyzer.longText ∧
    strEndsWith (pyLower "resume.doc") ".pdf" = false ∧
    strEndsWith (pyLower "resume.doc") ".docx" = false := by
  refine ⟨rfl, by decide, by decide⟩

/-- C8 amended: parsing fails with the unsupported-format error exactly
for filenames whose lower-cased name ends in none of `.pdf`, `.docx`,
`.doc`; for supported extensions it fails with the extraction error when
the extracted text is empty or shorter than 100 characters after
stripping, and otherwise produces the record. -/
theorem c8_amended_parse_gate (filename text : String) :
    ((strEndsWith (pyLower filename) ".pdf" = false ∧
      strEndsWith (pyLower filename) ".docx" = false ∧
      strEndsWith (pyLower filename) ".doc" = false) →
      Analyzer.analyzeResume filename text =
        Except.error Analyzer.ParseError.unsupportedFormat) ∧
    ((strEndsWith (pyLower filename) ".pdf" = true ∨
      strEndsWith (pyLower filename) ".docx" = true ∨
      strEndsWith (pyLower filename) ".doc" = true) →
      ((text = "" ∨ (pyStrip text).length < 100) →
        Analyzer.analyzeResume filename text =
          Except.error Analyzer.ParseError.extractionError) ∧
      (¬(text = "" ∨ (pyStrip text).length < 100) →
        Analyzer.analyzeResume filename text = Except.ok text)) := by
  constructor
  · rintro ⟨h1, h2, h3⟩
    simp [Analyzer.analyzeResume, h1, h2, h3]
  · intro hsup
    have hgate : Analyzer.analyzeResume filename text =
        Analyzer.analyzeResume.checkText text := by
      rcases hsup with h | h | h <;>
        by_cases hpdf : strEndsWith (pyLower filename) ".pdf" = true <;>
        simp_all [Analyzer.analyzeResume]
    constructor
    · intro hshort
      rw [hgate]
      simp [Analyzer.analyzeResume.checkText, hshort]
    · intro hlong
      rw [hgate]
      simp [Analyzer.analyzeResume.checkText, hlong]

set_option maxRecDepth 4000 in
/-- Witness for C8 (amended) at concrete filenames and extractions,
including spec Scenario D (a 40-character extraction). -/
theorem c8_witness :
    Analyzer.analyzeResume "resume.txt" Analyzer.longText =
      Except.error Analyzer.ParseError.unsupportedFormat ∧
    Analyzer.analyzeResume "cv.pdf" Analyzer.shortText =
      Except.error Analyzer.ParseError.extractionError ∧
    Analyzer.analyzeResume "cv.pdf" Analyzer.longText =
      Except.ok Analyzer.longText :=
  ⟨(c8_amended_parse_gate "resume.txt" Analyzer.longText).1
      ⟨by decide, by decide, by decide⟩,
   ((c8_amended_parse_gate "cv.pdf" Analyzer.shortText).2
      (Or.inl (by decide))).1 (Or.inr (by decide)),
   ((c8_amended_parse_gate "cv.pdf" Analyzer.longText).2
      (Or.inl (by decide))).2 (by decide)⟩
